import Mathlib

/-!
# Verification of the GTR renderer core

A shallow embedding of the render-call builder/sorter, frustum culling,
irradiance-cache persistence, nearest-reflection-probe assignment, the
shadow-map pass, and the per-light intensity bookkeeping of the GTR
framework (src/renderer.cpp, src/renderer.h, src/scene.cpp, src/scene.h),
together with proofs and refutations of the specified properties.

Floats are modelled as exact rationals; `float` to `int` conversions are
made explicit where they matter.
-/

namespace GTR

/-- Componentwise 3-vector over ℚ, standing for the framework's `Vector3`
(floats modelled as exact rationals). -/
structure Vec3 where
  x : ℚ
  y : ℚ
  z : ℚ
deriving DecidableEq

/-- Componentwise sum, as the framework's `Vector3::operator+`. -/
instance : Add Vec3 := ⟨fun a b => ⟨a.x + b.x, a.y + b.y, a.z + b.z⟩⟩

/-- Componentwise product, as the framework's `Vector3::operator*`
(used in `placeProbes`: `delta * Vector3(x, y, z)`). -/
instance : Mul Vec3 := ⟨fun a b => ⟨a.x * b.x, a.y * b.y, a.z * b.z⟩⟩

/-- `GTR::eAlphaMode` (material.h): NO_ALPHA, MASK, BLEND. -/
inductive eAlphaMode where
  | NO_ALPHA
  | MASK
  | BLEND
deriving DecidableEq

/-- The material data read by the renderer: `GTR::Material::alpha_mode`
and `GTR::Material::two_sided`. -/
structure Material where
  alpha_mode : eAlphaMode
  two_sided : Bool
deriving DecidableEq

/-- A mesh reference: `id` stands for the mesh pointer identity,
`numVertices` for `Mesh::getNumVertices()`. -/
structure Mesh where
  id : ℕ
  numVertices : ℕ
deriving DecidableEq

/-- `GTR::renderCall` (renderer.h lines 60-85). The world matrix and the
nearest-reflection-probe pointer are omitted: no claim below reads them.
`distance_to_camera` is the scalar filled in by `computeDistanceToCamera`;
the sorting claims depend only on how these scalars compare. -/
structure renderCall where
  mesh : Option Mesh
  material : Option Material
  distance_to_camera : ℚ
  isAlpha : Bool
deriving DecidableEq

/-! ## Render-call sorting (renderer.cpp lines 102-148)

`createRenderCalls` sorts `render_calls` twice with `std::sort`:
first with `compareDistanceToCamera`, then with `compareAlpha`.
`std::sort` is modelled by its ISO C++ contract: the output is a
permutation of the input that is sorted with respect to the comparator
(`!comp(a[i+1], a[i])` for consecutive elements).  `std::sort` is not
`std::stable_sort`: the relative order of equivalent elements in the
output is unspecified, so the model is a relation, not a function. -/

/-- `compareDistanceToCamera::operator()` (renderer.cpp line 106):
`rc1.distance_to_camera > rc2.distance_to_camera`. -/
def compareDistanceToCamera (rc1 rc2 : renderCall) : Bool :=
  decide (rc1.distance_to_camera > rc2.distance_to_camera)

/-- `compareAlpha::operator()` (renderer.cpp line 115):
`!rc1.isAlpha && rc2.isAlpha`. -/
def compareAlpha (rc1 rc2 : renderCall) : Bool :=
  !rc1.isAlpha && rc2.isAlpha

/-- A list is sorted with respect to a comparator in the C++
`std::is_sorted` sense: no element compares strictly before its
predecessor. -/
def sortedWrt (cmp : renderCall → renderCall → Bool) : List renderCall → Bool
  | [] => true
  | [_] => true
  | a :: b :: t => !cmp b a && sortedWrt cmp (b :: t)

/-- `sortedWrt` is consecutive-pair sortedness. -/
theorem sortedWrt_chain {cmp : renderCall → renderCall → Bool} :
    ∀ {l : List renderCall}, sortedWrt cmp l = true →
      List.Chain' (fun a b => cmp b a = false) l := by
  intro l
  induction l with
  | nil => intro _; exact List.chain'_nil
  | cons a t ih =>
    cases t with
    | nil => intro _; simp
    | cons b t2 =>
      intro h
      rw [sortedWrt, Bool.and_eq_true] at h
      exact List.Chain'.cons (by simpa using h.1) (ih h.2)

/-- The ISO C++ contract of `std::sort(begin, end, cmp)`: the output is
some permutation of the input sorted with respect to `cmp`. -/
def stdSortSpec (cmp : renderCall → renderCall → Bool) (l lout : List renderCall) : Prop :=
  l.Perm lout ∧ sortedWrt cmp lout = true

/-- The two sorting passes of `createRenderCalls` (renderer.cpp lines
144-147), run only when a camera is supplied: `lfin` is a possible final
content of `render_calls` produced from the unsorted call list `l`. -/
def createRenderCallsSort (l lfin : List renderCall) : Prop :=
  ∃ lmid, stdSortSpec compareDistanceToCamera l lmid ∧ stdSortSpec compareAlpha lmid lfin

/-- Chain' of a transitive relation gives Pairwise. -/
theorem chain_pairwise {α : Type} {R : α → α → Prop}
    (tr : ∀ a b c, R a b → R b c → R a c) :
    ∀ {l : List α}, List.Chain' R l → List.Pairwise R l := by
  intro l
  induction l with
  | nil => intro _; exact List.Pairwise.nil
  | cons a t ih =>
    intro h
    rw [List.chain'_cons'] at h
    obtain ⟨hhead, htail⟩ := h
    refine List.Pairwise.cons ?_ (ih htail)
    intro b hb
    have hpair := ih htail
    -- every element of t is reachable from the head of t by R-steps
    clear ih
    induction t with
    | nil => cases hb
    | cons c t2 ih2 =>
      have hac : R a c := hhead c rfl
      rcases List.mem_cons.mp hb with hbc | hbt
      · subst hbc; exact hac
      · have hcpair := List.pairwise_cons.mp hpair
        exact tr a c b hac (hcpair.1 b hbt)

/-- Transparent entries drawn back-to-front: along the list, the stored
distance to camera never increases. -/
def nonIncreasingDistance (l : List renderCall) : Prop :=
  l.Pairwise (fun a b => b.distance_to_camera ≤ a.distance_to_camera)

/-- The transparent partition of a call list. -/
def alphaPartition (l : List renderCall) : List renderCall :=
  l.filter (fun rc => rc.isAlpha)

instance (l : List renderCall) : Decidable (nonIncreasingDistance l) :=
  inferInstanceAs
    (Decidable
      (List.Pairwise (fun a b : renderCall => b.distance_to_camera ≤ a.distance_to_camera) l))

/-- C1: after `createRenderCalls`' two sorting passes with a non-null
camera, every opaque entry precedes every transparent entry: for `i < j`
in the sorted list it is not the case that entry `i` is transparent and
entry `j` is opaque. -/
theorem createRenderCalls_opaque_precedes_transparent
    (l lfin : List renderCall) (i j : ℕ)
    (hi : i < lfin.length) (hj : j < lfin.length)
    (hsort : createRenderCallsSort l lfin) (hij : i < j) :
    ¬((lfin.get ⟨i, hi⟩).isAlpha = true ∧ (lfin.get ⟨j, hj⟩).isAlpha = false) := by
  obtain ⟨lmid, _, _, hchain⟩ := hsort
  have hpair : lfin.Pairwise (fun a b => a.isAlpha = true → b.isAlpha = true) := by
    refine chain_pairwise (fun a b c hab hbc ha => hbc (hab ha)) ?_
    refine List.Chain'.imp ?_ (sortedWrt_chain hchain)
    intro a b h ha
    by_contra hb
    simp only [compareAlpha, ha, Bool.not_eq_true] at h hb
    simp [hb] at h
  have hmono := List.pairwise_iff_get.mp hpair ⟨i, hi⟩ ⟨j, hj⟩ hij
  rintro ⟨hA, hB⟩
  rw [hmono hA] at hB
  cases hB

/-- A concrete opaque render call. -/
def rcOpq : renderCall := ⟨none, none, 1, false⟩

/-- A concrete transparent render call, farther from the camera. -/
def rcTrn : renderCall := ⟨none, none, 2, true⟩

/-- Witness for C1 at a concrete two-element list. -/
theorem createRenderCalls_opaque_precedes_transparent_witness :
    ¬((([rcOpq, rcTrn] : List renderCall).get ⟨0, by decide⟩).isAlpha = true ∧
      (([rcOpq, rcTrn] : List renderCall).get ⟨1, by decide⟩).isAlpha = false) :=
  createRenderCalls_opaque_precedes_transparent [rcOpq, rcTrn] [rcOpq, rcTrn] 0 1
    (by decide) (by decide)
    ⟨[rcTrn, rcOpq], ⟨by decide, by decide⟩, ⟨by decide, by decide⟩⟩ (by decide)

/-- A concrete transparent render call near the camera. -/
def rcTrnNear : renderCall := ⟨none, none, 1, true⟩

/-- A concrete transparent render call far from the camera. -/
def rcTrnFar : renderCall := ⟨none, none, 2, true⟩

/-- C2 counterexample: the second pass is `std::sort`, which is not
required to be stable, so the back-to-front order established by the
distance pass need not survive it.  With two transparent calls at
distances 1 and 2, the list [near, far] is a legitimate output of the
two passes (both calls are `compareAlpha`-equivalent), yet its
transparent partition has strictly increasing distance to camera. -/
theorem createRenderCalls_backToFront_counterexample :
    createRenderCallsSort [rcTrnNear, rcTrnFar] [rcTrnNear, rcTrnFar] ∧
    ¬ nonIncreasingDistance (alphaPartition [rcTrnNear, rcTrnFar]) := by
  constructor
  · exact ⟨[rcTrnFar, rcTrnNear], ⟨by decide, by decide⟩, ⟨by decide, by decide⟩⟩
  · decide

/-- A stable sort keyed on the transparency flag keeps each flag group in
its incoming relative order, i.e. it acts as a stable partition. -/
def stableSortByAlpha (l : List renderCall) : List renderCall :=
  l.filter (fun rc => !rc.isAlpha) ++ l.filter (fun rc => rc.isAlpha)

/-- C2 (amended): after the distance pass (farthest first), if the
transparency pass is performed by a *stable* sort keyed on the flag, the
transparent partition of the final list has non-increasing distance to
camera. -/
theorem createRenderCalls_backToFront_of_stable
    (l lmid : List renderCall)
    (h : stdSortSpec compareDistanceToCamera l lmid) :
    nonIncreasingDistance (alphaPartition (stableSortByAlpha lmid)) := by
  obtain ⟨_, hchain⟩ := h
  have hpair : lmid.Pairwise (fun a b => b.distance_to_camera ≤ a.distance_to_camera) := by
    refine chain_pairwise
      (R := fun a b : renderCall => b.distance_to_camera ≤ a.distance_to_camera)
      (fun _ _ _ hab hbc => le_trans hbc hab) ?_
    refine List.Chain'.imp ?_ (sortedWrt_chain hchain)
    intro a b hf
    rw [compareDistanceToCamera] at hf
    exact not_lt.mp (of_decide_eq_false hf)
  have hsub : alphaPartition (stableSortByAlpha lmid) =
      lmid.filter (fun rc => rc.isAlpha) := by
    simp [alphaPartition, stableSortByAlpha, List.filter_append, List.filter_filter]
  rw [nonIncreasingDistance, hsub]
  exact List.Pairwise.sublist (List.filter_sublist _) hpair

/-- Witness for the amended C2 at a concrete two-element list. -/
theorem createRenderCalls_backToFront_of_stable_witness :
    nonIncreasingDistance (alphaPartition (stableSortByAlpha [rcTrnFar, rcTrnNear])) :=
  createRenderCalls_backToFront_of_stable [rcTrnNear, rcTrnFar] [rcTrnFar, rcTrnNear]
    ⟨by decide, by decide⟩

/-! ## Frustum culling (renderer.cpp lines 166-196)

`nodeToRenderCall` computes the node's world bounding box and keeps the
node only if `!camera || camera->testBoxInFrustum(center, halfsize)`.
The matrix chain (`getGlobalMatrix`, `transformBoundingBox`) and
`Camera::testBoxInFrustum` live in framework files that are not part of
src/, so the world box is carried as data on the node and the frustum
test is modelled from the spec. -/

/-- A world-space axis-aligned bounding box (center and half size), the
result of `transformBoundingBox(node_model, node->mesh->box)`. -/
structure BoundingBox where
  center : Vec3
  halfsize : Vec3
deriving DecidableEq

/-- A half-space boundary plane a·x + b·y + c·z + d = 0; the inside of
the half-space is where the evaluation is nonnegative. -/
structure Plane where
  a : ℚ
  b : ℚ
  c : ℚ
  d : ℚ
deriving DecidableEq

/-- Plane evaluation at a point. -/
def Plane.eval (p : Plane) (v : Vec3) : ℚ :=
  p.a * v.x + p.b * v.y + p.c * v.z + p.d

/-- The 8 corners of a bounding box. -/
def BoundingBox.corners (bb : BoundingBox) : List Vec3 :=
  [⟨bb.center.x - bb.halfsize.x, bb.center.y - bb.halfsize.y, bb.center.z - bb.halfsize.z⟩,
   ⟨bb.center.x - bb.halfsize.x, bb.center.y - bb.halfsize.y, bb.center.z + bb.halfsize.z⟩,
   ⟨bb.center.x - bb.halfsize.x, bb.center.y + bb.halfsize.y, bb.center.z - bb.halfsize.z⟩,
   ⟨bb.center.x - bb.halfsize.x, bb.center.y + bb.halfsize.y, bb.center.z + bb.halfsize.z⟩,
   ⟨bb.center.x + bb.halfsize.x, bb.center.y - bb.halfsize.y, bb.center.z - bb.halfsize.z⟩,
   ⟨bb.center.x + bb.halfsize.x, bb.center.y - bb.halfsize.y, bb.center.z + bb.halfsize.z⟩,
   ⟨bb.center.x + bb.halfsize.x, bb.center.y + bb.halfsize.y, bb.center.z - bb.halfsize.z⟩,
   ⟨bb.center.x + bb.halfsize.x, bb.center.y + bb.halfsize.y, bb.center.z + bb.halfsize.z⟩]

/-- The box lies fully outside the half-space bounded by `p`: all 8
corners are strictly on the negative side. -/
def boxFullyOutside (p : Plane) (bb : BoundingBox) : Bool :=
  bb.corners.all (fun v => decide (p.eval v < 0))

/-- The box lies fully inside the half-space bounded by `p`. -/
def boxFullyInside (p : Plane) (bb : BoundingBox) : Bool :=
  bb.corners.all (fun v => decide (0 ≤ p.eval v))

/-- The camera frustum as its 6 half-space planes. -/
structure Frustum where
  leftP : Plane
  rightP : Plane
  topP : Plane
  bottomP : Plane
  nearP : Plane
  farP : Plane
deriving DecidableEq

/-- The 6 planes of the frustum. -/
def Frustum.planes (f : Frustum) : List Plane :=
  [f.leftP, f.rightP, f.topP, f.bottomP, f.nearP, f.farP]

/-- Modelled from the spec: `Camera::testBoxInFrustum` is framework code
missing from src/.  Per the spec (§4.1, §8) the box is tested against
the 6 frustum half-spaces and rejected only if fully outside.  The
result is the framework clip code: 0 (CLIP_OUTSIDE, culled) when the box
is fully outside some half-space, otherwise nonzero (2 when fully
inside every half-space, 1 when overlapping). -/
def testBoxInFrustum (f : Frustum) (bb : BoundingBox) : ℕ :=
  if f.planes.any (fun p => boxFullyOutside p bb) then 0
  else if f.planes.all (fun p => boxFullyInside p bb) then 2
  else 1

/-- A prefab node (framework `GTR::Node`): visibility flag, optionally a
drawable (mesh id paired with the node's world bounding box, carried as
data as explained above), and children. -/
inductive Node where
  | mk (visible : Bool) (drawable : Option (ℕ × BoundingBox)) (children : List Node)

mutual
/-- `Renderer::nodeToRenderCall` (renderer.cpp lines 166-196): an
invisible node contributes nothing (children included); a node with mesh
and material emits one call when there is no camera or the frustum test
is nonzero; children are processed recursively.  Emitted calls are
(mesh id, world box) pairs. -/
def nodeToRenderCall (camera : Option Frustum) : Node → List (ℕ × BoundingBox)
  | Node.mk vis drawable children =>
    if !vis then []
    else
      (match drawable with
       | some (id, bb) =>
         if camera.all (fun f => testBoxInFrustum f bb != 0) then [(id, bb)] else []
       | none => []) ++ nodesToRenderCall camera children

/-- The recursive loop over the children of a node. -/
def nodesToRenderCall (camera : Option Frustum) : List Node → List (ℕ × BoundingBox)
  | [] => []
  | n :: ns => nodeToRenderCall camera n ++ nodesToRenderCall camera ns
end

/-- A box fully inside a half-space is not fully outside it. -/
theorem boxFullyInside_not_outside (p : Plane) (bb : BoundingBox)
    (h : boxFullyInside p bb = true) : boxFullyOutside p bb = false := by
  by_contra hcontra
  rw [Bool.not_eq_false] at hcontra
  obtain ⟨c, hc⟩ :=
    List.exists_mem_of_ne_nil bb.corners (by simp [BoundingBox.corners])
  have h1 := List.all_eq_true.mp h c hc
  have h2 := List.all_eq_true.mp hcontra c hc
  simp only [decide_eq_true_eq] at h1 h2
  exact absurd h2 (not_lt.mpr h1)

/-- C3: for a visible node carrying a mesh and a material, processed by
`nodeToRenderCall` with a camera: a node whose world box is fully
outside all 6 frustum half-spaces emits no render call for itself, and a
node whose world box is fully inside the frustum always emits one. -/
theorem nodeToRenderCall_frustum_culling
    (f : Frustum) (cs : List Node) (idO idI : ℕ) (bbO bbI : BoundingBox)
    (hout : ∀ p ∈ f.planes, boxFullyOutside p bbO = true)
    (hin : ∀ p ∈ f.planes, boxFullyInside p bbI = true) :
    nodeToRenderCall (some f) (Node.mk true (some (idO, bbO)) cs) =
      nodesToRenderCall (some f) cs ∧
    nodeToRenderCall (some f) (Node.mk true (some (idI, bbI)) cs) =
      (idI, bbI) :: nodesToRenderCall (some f) cs := by
  constructor
  · have hany : f.planes.any (fun p => boxFullyOutside p bbO) = true :=
      List.any_eq_true.mpr
        ⟨f.leftP, by simp [Frustum.planes],
         hout f.leftP (by simp [Frustum.planes])⟩
    simp [nodeToRenderCall, testBoxInFrustum, hany, Option.all]
  · have hnone : f.planes.any (fun p => boxFullyOutside p bbI) = false := by
      rw [List.any_eq_false]
      intro p hp
      simpa using boxFullyInside_not_outside p bbI (hin p hp)
    have htest : testBoxInFrustum f bbI ≠ 0 := by
      unfold testBoxInFrustum
      rw [hnone]
      simp only [Bool.false_eq_true, if_false]
      split <;> simp
    simp [nodeToRenderCall, Option.all, bne_iff_ne, htest]

/-- A degenerate frustum whose 6 half-spaces all equal x ≥ -1: with
unconstrained plane data a box can be fully outside all 6 half-spaces at
once. -/
def frTest : Frustum :=
  ⟨⟨1, 0, 0, 1⟩, ⟨1, 0, 0, 1⟩, ⟨1, 0, 0, 1⟩, ⟨1, 0, 0, 1⟩, ⟨1, 0, 0, 1⟩, ⟨1, 0, 0, 1⟩⟩

/-- A unit box around (-10, 0, 0), fully outside every plane of
`frTest`. -/
def bbOut : BoundingBox := ⟨⟨-10, 0, 0⟩, ⟨1, 1, 1⟩⟩

/-- A unit box around (10, 0, 0), fully inside every plane of
`frTest`. -/
def bbIn : BoundingBox := ⟨⟨10, 0, 0⟩, ⟨1, 1, 1⟩⟩

/-- Witness for C3 at concrete data. -/
theorem nodeToRenderCall_frustum_culling_witness :
    nodeToRenderCall (some frTest) (Node.mk true (some (0, bbOut)) []) =
      nodesToRenderCall (some frTest) [] ∧
    nodeToRenderCall (some frTest) (Node.mk true (some (1, bbIn)) []) =
      (1, bbIn) :: nodesToRenderCall (some frTest) [] :=
  nodeToRenderCall_frustum_culling frTest [] 0 1 bbOut bbIn
    (by
      intro p hp
      simp only [frTest, Frustum.planes, List.mem_cons, List.not_mem_nil, or_false,
        or_self] at hp
      subst hp
      norm_num [boxFullyOutside, BoundingBox.corners, Plane.eval, bbOut,
        List.all_cons, List.all_nil])
    (by
      intro p hp
      simp only [frTest, Frustum.planes, List.mem_cons, List.not_mem_nil, or_false,
        or_self] at hp
      subst hp
      norm_num [boxFullyInside, BoundingBox.corners, Plane.eval, bbIn,
        List.all_cons, List.all_nil])

/-! ## Irradiance cache persistence (scene.cpp lines 169-222, 598-620)

`saveIrradianceToDisk` writes a fixed header followed by
`probes.size()` fixed-size probe records; `readIrradianceFromDisk`
reads the header, copies its fields, resizes the probe vector to the
header's probe count and reads that many records.  The file is modelled
as the header plus the list of written records (the layout is
position-dependent with fixed-size records, so this is exact). -/

/-- `GTR::sProbe` (scene.h lines 113-122): world position, grid
coordinate (source field `local`, renamed: Lean keyword), linear index,
probe size, and the 9 RGB spherical-harmonic coefficients (27 floats),
flattened. -/
structure sProbe where
  pos : Vec3
  localPos : Vec3
  index : ℤ
  size : ℚ
  sh : List ℚ
deriving DecidableEq

/-- The per-probe state of `GTR::IrradianceEntity` (scene.h lines
124-143): grid dimensions, start and end corners, per-axis delta, probe
size, and the probe vector. -/
structure IrradianceEntity where
  dim : Vec3
  start_pos : Vec3
  end_pos : Vec3
  delta : Vec3
  size : ℚ
  probes : List sProbe
deriving DecidableEq

/-- Number of iterations of `for (int i = 0; i < q; ++i)` where `q` is a
float: the nonnegative integers strictly below `q`, i.e. `⌈q⌉` clamped
to zero. -/
def loopCount (q : ℚ) : ℕ := (⌈q⌉ : ℤ).toNat

/-- The SH coefficients written by `placeProbes` (scene.cpp lines
606-610): `memset 0`, then `coeffs[0].set(1,0,0)` and
`coeffs[2].set(0,0,1)`. -/
def shInitial : List ℚ :=
  [1, 0, 0, 0, 0, 0, 0, 0, 1] ++ List.replicate 18 0

/-- One probe as built by the body of the `placeProbes` loops (scene.cpp
lines 606-618).  The linear index `x + y * dim.x + z * dim.x * dim.y` is
computed in float arithmetic and truncated on assignment to `int`; the
operands are nonnegative, so truncation is the floor. -/
def mkProbe (s : IrradianceEntity) (x y z : ℕ) : sProbe :=
  { pos := s.start_pos + s.delta * ⟨(x : ℚ), (y : ℚ), (z : ℚ)⟩
    localPos := ⟨(x : ℚ), (y : ℚ), (z : ℚ)⟩
    index := ⌊(x : ℚ) + (y : ℚ) * s.dim.x + (z : ℚ) * s.dim.x * s.dim.y⌋
    size := s.size
    sh := shInitial }

/-- `IrradianceEntity::placeProbes` (scene.cpp lines 598-620): clears
the probe vector and pushes one probe per grid cell, `z` outermost, `x`
innermost. -/
def placeProbes (s : IrradianceEntity) : IrradianceEntity :=
  { s with probes :=
      ((List.range (loopCount s.dim.z)).map (fun z =>
        ((List.range (loopCount s.dim.y)).map (fun y =>
          (List.range (loopCount s.dim.x)).map (fun x =>
            mkProbe s x y z))).flatten)).flatten }

/-- `GTR::sIrrHeader` (scene.h lines 167-173); the source field `end` is
renamed `stop` (Lean keyword).  `num_probes` is an `int`. -/
structure sIrrHeader where
  start : Vec3
  stop : Vec3
  delta : Vec3
  dims : Vec3
  num_probes : ℤ
deriving DecidableEq

/-- The irradiance cache file: the header record followed by the probe
records, in the fixed binary layout. -/
structure IrrFile where
  header : sIrrHeader
  records : List sProbe
deriving DecidableEq

/-- `Scene::saveIrradianceToDisk` (scene.cpp lines 169-189): the header
probe count is the float product `dim.x * dim.y * dim.z` truncated on
assignment to `int` (floor: the factors are nonnegative in every
reachable state), while `fwrite` writes `probes.size()` records. -/
def saveIrradianceToDisk (s : IrradianceEntity) : IrrFile :=
  { header :=
      { start := s.start_pos
        stop := s.end_pos
        dims := s.dim
        delta := s.delta
        num_probes := ⌊s.dim.x * s.dim.y * s.dim.z⌋ }
    records := s.probes }

/-- A value-initialized `sProbe`, the content of `resize`d slots that
the short `fread` does not overwrite.  No theorem below depends on this
content. -/
def defaultProbe : sProbe := ⟨⟨0, 0, 0⟩, ⟨0, 0, 0⟩, 0, 0, List.replicate 27 0⟩

/-- `Scene::readIrradianceFromDisk` (scene.cpp lines 191-222).  A
missing file returns `false` without touching the state.  Otherwise the
header fields are copied, the probe vector is resized to the header
count and `fread` fills it with `min(count, available)` records from
the file; on this path control falls off the end of the `bool` function,
so the returned value is unspecified (`none`). -/
def readIrradianceFromDisk (file : Option IrrFile) (s : IrradianceEntity) :
    Option Bool × IrradianceEntity :=
  match file with
  | none => (some false, s)
  | some f =>
    let n := f.header.num_probes.toNat
    (none,
     { s with
        start_pos := f.header.start
        end_pos := f.header.stop
        dim := f.header.dims
        delta := f.header.delta
        probes := f.records.take n ++ List.replicate (n - f.records.length) defaultProbe })

/-- C8: when the irradiance cache file is absent, the read reports
failure (`false`) and the whole in-memory probe state is exactly as it
was before the call. -/
theorem readIrradianceFromDisk_absent_noop (s : IrradianceEntity) :
    readIrradianceFromDisk none s = (some false, s) := rfl

/-- The C4 round-trip property at a state: saving the grid and loading
the result back reproduces the state exactly. -/
def irradianceRoundTripExact (s : IrradianceEntity) : Prop :=
  (readIrradianceFromDisk (some (saveIrradianceToDisk s)) s).2 = s

/-- Length of a flattened constant-shape map over a range. -/
theorem length_flatten_map_range {α : Type} (f : ℕ → List α) (L : ℕ)
    (h : ∀ i, (f i).length = L) :
    ∀ n, (((List.range n).map f).flatten).length = n * L := by
  intro n
  induction n with
  | zero => simp
  | succ m ih =>
    rw [List.range_succ, List.map_append, List.flatten_append, List.length_append, ih]
    simp [h m, Nat.succ_mul]

/-- The number of probes placed by `placeProbes`. -/
theorem placeProbes_length (s : IrradianceEntity) :
    (placeProbes s).probes.length =
      loopCount s.dim.z * (loopCount s.dim.y * loopCount s.dim.x) := by
  unfold placeProbes
  refine length_flatten_map_range _ _ (fun z => ?_) _
  refine length_flatten_map_range _ _ (fun y => ?_) _
  simp

/-- A state whose grid dimensions are fractional: `dim = (2.5, 1, 1)`.
`placeProbes` runs `⌈2.5⌉ = 3` iterations on the x axis, but the saved
header records `⌊2.5ᐧ1ᐧ1⌋ = 2` probes. -/
def irrFractional : IrradianceEntity :=
  { dim := ⟨5 / 2, 1, 1⟩
    start_pos := ⟨0, 0, 0⟩
    end_pos := ⟨0, 0, 0⟩
    delta := ⟨1, 1, 1⟩
    size := 1
    probes := [] }

/-- Iteration counts for the fractional grid. -/
theorem irrFractional_loopCounts :
    loopCount ((5 : ℚ) / 2) = 3 ∧ loopCount (1 : ℚ) = 1 := by
  constructor
  · unfold loopCount
    rw [show (⌈(5 : ℚ) / 2⌉ : ℤ) = 3 by rw [Int.ceil_eq_iff]; norm_num]
    rfl
  · unfold loopCount
    rw [show (⌈(1 : ℚ)⌉ : ℤ) = 1 by rw [Int.ceil_eq_iff]; norm_num]
    rfl

/-- C4 counterexample: on the grid produced by `placeProbes` from
`irrFractional`, the save/load round trip does not reproduce the
pre-save state — 3 probes are placed and written, but the header
announces 2, so the reload keeps only 2. -/
theorem irradianceRoundTrip_counterexample :
    ¬ irradianceRoundTripExact (placeProbes irrFractional) := by
  intro h
  have hlen := congrArg (fun s => s.probes.length) h
  obtain ⟨hc52, hc1⟩ := irrFractional_loopCounts
  have hcount : (placeProbes irrFractional).probes.length = 3 := by
    rw [placeProbes_length]
    show loopCount (1 : ℚ) * (loopCount (1 : ℚ) * loopCount ((5 : ℚ) / 2)) = 3
    rw [hc52, hc1]
  have hfloor : (⌊(5 : ℚ) / 2 * 1 * 1⌋ : ℤ) = 2 := by
    rw [Int.floor_eq_iff]; norm_num
  simp only [readIrradianceFromDisk, saveIrradianceToDisk, List.length_append,
    List.length_take, List.length_replicate] at hlen
  rw [hcount] at hlen
  change (min ((⌊(5 : ℚ) / 2 * 1 * 1⌋ : ℤ).toNat) 3 +
    ((⌊(5 : ℚ) / 2 * 1 * 1⌋ : ℤ).toNat - 3) = 3) at hlen
  rw [hfloor] at hlen
  simp at hlen

/-- C4 (amended): for a probe grid produced by `placeProbes` from a
state whose per-axis dimensions are (casts of) natural numbers, the
save/load round trip reproduces the in-memory probe state exactly. -/
theorem irradianceRoundTrip_of_natDims (s : IrradianceEntity) (a b c : ℕ)
    (hdim : s.dim = ⟨(a : ℚ), (b : ℚ), (c : ℚ)⟩) :
    irradianceRoundTripExact (placeProbes s) := by
  have hx : loopCount s.dim.x = a := by
    rw [hdim]; unfold loopCount; rw [Int.ceil_natCast, Int.toNat_natCast]
  have hy : loopCount s.dim.y = b := by
    rw [hdim]; unfold loopCount; rw [Int.ceil_natCast, Int.toNat_natCast]
  have hz : loopCount s.dim.z = c := by
    rw [hdim]; unfold loopCount; rw [Int.ceil_natCast, Int.toNat_natCast]
  have hlen : (placeProbes s).probes.length = c * (b * a) := by
    rw [placeProbes_length]
    show loopCount s.dim.z * (loopCount s.dim.y * loopCount s.dim.x) = c * (b * a)
    rw [hx, hy, hz]
  have hprod : (⌊(placeProbes s).dim.x * (placeProbes s).dim.y * (placeProbes s).dim.z⌋ : ℤ) =
      ((a * b * c : ℕ) : ℤ) := by
    show (⌊s.dim.x * s.dim.y * s.dim.z⌋ : ℤ) = ((a * b * c : ℕ) : ℤ)
    rw [hdim]
    show (⌊(a : ℚ) * (b : ℚ) * (c : ℚ)⌋ : ℤ) = ((a * b * c : ℕ) : ℤ)
    rw [← Nat.cast_mul, ← Nat.cast_mul, Int.floor_natCast]
  have hdimeq : (placeProbes s).dim = s.dim := rfl
  unfold irradianceRoundTripExact readIrradianceFromDisk saveIrradianceToDisk
  simp only [hprod, Int.toNat_natCast]
  have hn : a * b * c = (placeProbes s).probes.length := by rw [hlen]; ring
  rw [hn, List.take_length, Nat.sub_self, List.replicate_zero, List.append_nil]

/-- A concrete 1×1×2 grid state with natural dimensions. -/
def irrNatGrid : IrradianceEntity :=
  { dim := ⟨1, 1, 2⟩
    start_pos := ⟨0, 0, 0⟩
    end_pos := ⟨0, 0, 4⟩
    delta := ⟨0, 0, 4⟩
    size := 1
    probes := [] }

/-- Witness for the amended C4 at a concrete grid. -/
theorem irradianceRoundTrip_of_natDims_witness :
    irradianceRoundTripExact (placeProbes irrNatGrid) :=
  irradianceRoundTrip_of_natDims irrNatGrid 1 1 2 (by norm_num [irrNatGrid])

/-! ## Nearest reflection probe (scene.cpp lines 252-284)

`computeDistanceToProbe` returns `sqrt` of the sum of squared component
differences, and the loop only ever *compares* its results — against
each other and against the initial `near_distance = 99999`.  Since
`sqrt` is strictly monotone on nonnegative reals, the loop is modelled
on squared distances, with the sentinel squared. -/

/-- The square of `computeDistanceToProbe(center, probe_pos)`
(scene.cpp lines 252-261). -/
def computeDistanceToProbeSq (center probe_pos : Vec3) : ℚ :=
  (probe_pos.x - center.x) ^ 2 + (probe_pos.y - center.y) ^ 2 +
    (probe_pos.z - center.z) ^ 2

/-- The scan loop of `PrefabEntity::updateNearestReflectionProbe`
(scene.cpp lines 268-278): `i` is the index of the head of `ps`, `bi`
and `bd` are `index_nearest` and (the square of) `near_distance`.  The
comparison is strict, so on ties the earlier index is kept. -/
def nearestLoop (pos : Vec3) : List Vec3 → ℕ → ℤ → ℚ → ℤ × ℚ
  | [], _, bi, bd => (bi, bd)
  | p :: ps, i, bi, bd =>
    if computeDistanceToProbeSq pos p < bd then
      nearestLoop pos ps (i + 1) (Int.ofNat i) (computeDistanceToProbeSq pos p)
    else
      nearestLoop pos ps (i + 1) bi bd

/-- `PrefabEntity::updateNearestReflectionProbe` (scene.cpp lines
263-284): scans all probes starting from `index_nearest = -1` and
`near_distance = 99999`, then assigns `reflect_probes[index_nearest]`
only when `index_nearest != -1 && index_nearest < size`; otherwise the
cached probe `old` is left as it was.  Probes are identified by their
index in `scene->reflect_probes`. -/
def updateNearestReflectionProbe (pos : Vec3) (probes : List Vec3)
    (old : Option ℕ) : Option ℕ :=
  let res := nearestLoop pos probes 0 (-1) (99999 ^ 2)
  if res.1 ≠ -1 ∧ res.1 < (probes.length : ℤ) then some res.1.toNat else old

/-- The C5 property at given inputs: the entity is assigned the probe
minimizing the Euclidean distance to its origin (equivalently, the
squared distance), with ties broken by the lowest probe index. -/
def assignsNearestProbe (pos : Vec3) (probes : List Vec3) (old : Option ℕ) : Prop :=
  ∃ k, ∃ hk : k < probes.length,
    updateNearestReflectionProbe pos probes old = some k ∧
    (∀ j (hj : j < probes.length),
      computeDistanceToProbeSq pos (probes.get ⟨k, hk⟩) ≤
        computeDistanceToProbeSq pos (probes.get ⟨j, hj⟩)) ∧
    (∀ j (hj : j < k),
      computeDistanceToProbeSq pos (probes.get ⟨j, Nat.lt_trans hj hk⟩) ≠
        computeDistanceToProbeSq pos (probes.get ⟨k, hk⟩))

/-- Loop invariant of `nearestLoop`: the final best distance never
exceeds the incoming one and bounds every scanned distance from below;
and either the accumulator survives untouched (with every scanned
distance at least the incoming best), or the result points at the
earliest scanned probe realizing the final best distance, strictly
better than the incoming best and strictly better than every
earlier-scanned probe. -/
theorem nearestLoop_spec (pos : Vec3) :
    ∀ (ps : List Vec3) (i : ℕ) (bi : ℤ) (bd : ℚ),
      (nearestLoop pos ps i bi bd).2 ≤ bd ∧
      (∀ k (hk : k < ps.length),
        (nearestLoop pos ps i bi bd).2 ≤
          computeDistanceToProbeSq pos (ps.get ⟨k, hk⟩)) ∧
      ((nearestLoop pos ps i bi bd) = (bi, bd) ∧
        (∀ k (hk : k < ps.length),
          bd ≤ computeDistanceToProbeSq pos (ps.get ⟨k, hk⟩)) ∨
       (∃ k, ∃ hk : k < ps.length,
         (nearestLoop pos ps i bi bd).1 = (i : ℤ) + k ∧
         (nearestLoop pos ps i bi bd).2 =
           computeDistanceToProbeSq pos (ps.get ⟨k, hk⟩) ∧
         (nearestLoop pos ps i bi bd).2 < bd ∧
         ∀ m (hm : m < k),
           (nearestLoop pos ps i bi bd).2 <
             computeDistanceToProbeSq pos (ps.get ⟨m, Nat.lt_trans hm hk⟩))) := by
  intro ps
  induction ps with
  | nil =>
    intro i bi bd
    refine ⟨le_refl _, fun k hk => absurd hk (by simp), Or.inl ⟨rfl, fun k hk => absurd hk (by simp)⟩⟩
  | cons p ps ih =>
    intro i bi bd
    by_cases hlt : computeDistanceToProbeSq pos p < bd
    · have hstep : nearestLoop pos (p :: ps) i bi bd =
          nearestLoop pos ps (i + 1) (Int.ofNat i) (computeDistanceToProbeSq pos p) := by
        rw [nearestLoop, if_pos hlt]
      obtain ⟨ih1, ih2, ih3⟩ := ih (i + 1) (Int.ofNat i) (computeDistanceToProbeSq pos p)
      rw [hstep]
      refine ⟨le_of_lt (lt_of_le_of_lt ih1 hlt), ?_, ?_⟩
      · intro k hk
        match k with
        | 0 => exact ih1
        | Nat.succ k2 => exact ih2 k2 (Nat.lt_of_succ_lt_succ hk)
      · rcases ih3 with ⟨heq, hall⟩ | ⟨k, hk, h1, h2, h3, h4⟩
        · refine Or.inr ⟨0, by simp, ?_, ?_, ?_, ?_⟩
          · rw [heq]; simp
          · rw [heq]; rfl
          · rw [heq]; exact hlt
          · intro m hm; exact absurd hm (Nat.not_lt_zero m)
        · refine Or.inr ⟨k + 1, Nat.succ_lt_succ hk, ?_, ?_, ?_, ?_⟩
          · rw [h1]; push_cast; ring
          · exact h2
          · exact lt_trans h3 hlt
          · intro m hm
            match m with
            | 0 => exact h3
            | Nat.succ m2 => exact h4 m2 (Nat.lt_of_succ_lt_succ hm)
    · have hstep : nearestLoop pos (p :: ps) i bi bd =
          nearestLoop pos ps (i + 1) bi bd := by
        rw [nearestLoop, if_neg hlt]
      obtain ⟨ih1, ih2, ih3⟩ := ih (i + 1) bi bd
      rw [hstep]
      refine ⟨ih1, ?_, ?_⟩
      · intro k hk
        match k with
        | 0 => exact le_trans ih1 (not_lt.mp hlt)
        | Nat.succ k2 => exact ih2 k2 (Nat.lt_of_succ_lt_succ hk)
      · rcases ih3 with ⟨heq, hall⟩ | ⟨k, hk, h1, h2, h3, h4⟩
        · refine Or.inl ⟨heq, ?_⟩
          intro k hk
          match k with
          | 0 => exact not_lt.mp hlt
          | Nat.succ k2 => exact hall k2 (Nat.lt_of_succ_lt_succ hk)
        · refine Or.inr ⟨k + 1, Nat.succ_lt_succ hk, ?_, ?_, h3, ?_⟩
          · rw [h1]; push_cast; ring
          · exact h2
          · intro m hm
            match m with
            | 0 => exact lt_of_lt_of_le h3 (not_lt.mp hlt)
            | Nat.succ m2 => exact h4 m2 (Nat.lt_of_succ_lt_succ hm)

/-- C5 counterexample: with a single probe at squared distance
`100000² ≥ 99999²` from the entity, the sentinel never triggers, so no
probe is assigned at all — the claim's required nearest assignment does
not happen. -/
theorem updateNearestReflectionProbe_counterexample :
    ¬ assignsNearestProbe ⟨0, 0, 0⟩ [⟨100000, 0, 0⟩] none := by
  have hnone : updateNearestReflectionProbe ⟨0, 0, 0⟩ [⟨100000, 0, 0⟩] none = none := by
    norm_num [updateNearestReflectionProbe, nearestLoop, computeDistanceToProbeSq]
  rintro ⟨k, hk, heq, -, -⟩
  rw [hnone] at heq
  cases heq

/-- C5 (amended): whenever some probe lies at distance strictly below
the 99999 sentinel from the entity's origin, `updateNearestReflectionProbe`
assigns the probe minimizing the Euclidean distance, ties broken by the
lowest probe index. -/
theorem updateNearestReflectionProbe_assigns (pos : Vec3) (probes : List Vec3)
    (old : Option ℕ)
    (h : ∃ k, ∃ hk : k < probes.length,
      computeDistanceToProbeSq pos (probes.get ⟨k, hk⟩) < 99999 ^ 2) :
    assignsNearestProbe pos probes old := by
  obtain ⟨k0, hk0, hlt0⟩ := h
  obtain ⟨h1, h2, h3⟩ := nearestLoop_spec pos probes 0 (-1) (99999 ^ 2)
  rcases h3 with ⟨heq, hall⟩ | ⟨k, hk, hidx, hdist, hbetter, hties⟩
  · exact absurd hlt0 (not_lt.mpr (hall k0 hk0))
  · have hidx2 : (nearestLoop pos probes 0 (-1) (99999 ^ 2)).1 = (k : ℤ) := by
      rw [hidx]; push_cast; ring
    refine ⟨k, hk, ?_, ?_, ?_⟩
    · unfold updateNearestReflectionProbe
      rw [if_pos ⟨by rw [hidx2]; omega, by rw [hidx2]; exact_mod_cast hk⟩, hidx2]
      simp
    · intro j hj
      rw [← hdist]
      exact h2 j hj
    · intro j hj
      have hlt := hties j hj
      rw [hdist] at hlt
      exact ne_of_gt hlt

/-- Witness for the amended C5: a probe at squared distance 25. -/
theorem updateNearestReflectionProbe_assigns_witness :
    assignsNearestProbe ⟨0, 0, 0⟩ [⟨3, 4, 0⟩] none :=
  updateNearestReflectionProbe_assigns ⟨0, 0, 0⟩ [⟨3, 4, 0⟩] none
    ⟨0, by norm_num, by norm_num [computeDistanceToProbeSq, List.get]⟩

/-! ## Single-pass light gathering (renderer.cpp lines 885-921)

The gathering loop of `renderSinglePass` reads `lights[i]` for
`i = 0 .. num_lights-1` with `int num_lights = 5;` hard-coded — the
commented-out `lights.size()` beside it records the intended bound, and
the constructor comment (renderer.cpp line 35) documents the light
limit.  `std::vector::operator[]` past the end is undefined
behavior. -/

/-- The hard-coded `num_lights = 5` of `renderSinglePass`
(renderer.cpp line 896). -/
def renderSinglePassNumLights : ℕ := 5

/-- The indices at which the gathering loop reads `lights[i]`
(renderer.cpp lines 898-908). -/
def renderSinglePassLightIndices : List ℕ := List.range renderSinglePassNumLights

/-- Every read of the light list performed by `renderSinglePass` is in
bounds for a scene whose light list has `numLights` entries. -/
def renderSinglePassReadsInBounds (numLights : ℕ) : Prop :=
  ∀ i ∈ renderSinglePassLightIndices, i < numLights

instance (numLights : ℕ) : Decidable (renderSinglePassReadsInBounds numLights) :=
  inferInstanceAs (Decidable (∀ i ∈ renderSinglePassLightIndices, i < numLights))

/-- C9 fails on the code: for a scene with no lights (any count below
5), the gathering loop reads past the end of the list. -/
theorem renderSinglePass_reads_out_of_bounds :
    ¬ renderSinglePassReadsInBounds 0 := by decide

/-! ## Per-light intensity bookkeeping (renderer.cpp lines 493-604 and
606-692)

`renderReconstructedScene` and `renderVolumetricLights` each run a
directional loop and a point/spot loop over `lights`.  An iteration
either skips the light before touching it, or saves `prev_intensity`,
scales the intensity (×6 directional, ×5 point/spot) when
`linear_correction` is on, uploads/draws (which do not write the
light), and restores the saved value. -/

/-- `GTR::eLightType` (scene.h lines 72-76). -/
inductive eLightType where
  | DIRECTIONAL
  | SPOT
  | POINT
deriving DecidableEq

/-- The light fields read and written by the lighting loops.
`inside_frustum` is the precomputed result of
`camera->testSphereInFrustum` on the light's influence sphere (framework
code outside src/), carried as data. -/
structure LightState where
  intensity : ℚ
  light_type : eLightType
  is_volumetric : Bool
  inside_frustum : Bool
deriving DecidableEq

/-- One iteration of the directional loop of `renderReconstructedScene`
(renderer.cpp lines 519-538). -/
def reconstructedDirectionalPass (lc : Bool) (l : LightState) : LightState :=
  if l.inside_frustum = false ∨ l.light_type ≠ eLightType.DIRECTIONAL then l
  else
    let prev := l.intensity
    let l1 := if lc then { l with intensity := 6 * prev } else l
    if lc then { l1 with intensity := prev } else l1

/-- One iteration of the point/spot loop of `renderReconstructedScene`
(renderer.cpp lines 573-598). -/
def reconstructedPointSpotPass (lc : Bool) (l : LightState) : LightState :=
  if l.inside_frustum = false ∨ l.light_type = eLightType.DIRECTIONAL then l
  else
    let prev := l.intensity
    let l1 := if lc then { l with intensity := 5 * prev } else l
    if lc then { l1 with intensity := prev } else l1

/-- One iteration of the volumetric directional loop of
`renderVolumetricLights` (renderer.cpp lines 625-646); non-volumetric
lights are skipped first. -/
def volumetricDirectionalPass (lc : Bool) (l : LightState) : LightState :=
  if l.is_volumetric = false then l
  else if l.inside_frustum = false ∨ l.light_type ≠ eLightType.DIRECTIONAL then l
  else
    let prev := l.intensity
    let l1 := if lc then { l with intensity := 6 * prev } else l
    if lc then { l1 with intensity := prev } else l1

/-- One iteration of the volumetric point/spot loop of
`renderVolumetricLights` (renderer.cpp lines 661-689). -/
def volumetricPointSpotPass (lc : Bool) (l : LightState) : LightState :=
  if l.is_volumetric = false then l
  else if l.inside_frustum = false ∨ l.light_type = eLightType.DIRECTIONAL then l
  else
    let prev := l.intensity
    let l1 := if lc then { l with intensity := 5 * prev } else l
    if lc then { l1 with intensity := prev } else l1

/-- The effect of `renderReconstructedScene` on the light list: the
directional loop, then the point/spot loop. -/
def renderReconstructedSceneLights (lc : Bool) (ls : List LightState) : List LightState :=
  (ls.map (reconstructedDirectionalPass lc)).map (reconstructedPointSpotPass lc)

/-- The effect of `renderVolumetricLights` on the light list. -/
def renderVolumetricLightsLights (lc : Bool) (ls : List LightState) : List LightState :=
  (ls.map (volumetricDirectionalPass lc)).map (volumetricPointSpotPass lc)

/-- C10: on return from `renderReconstructedScene` and from
`renderVolumetricLights`, every light's intensity equals its entry
value, for every light list and on every control path (any
`linear_correction` setting). -/
theorem lightIntensity_restored (lc : Bool) (ls : List LightState) :
    (renderReconstructedSceneLights lc ls).map LightState.intensity =
      ls.map LightState.intensity ∧
    (renderVolumetricLightsLights lc ls).map LightState.intensity =
      ls.map LightState.intensity := by
  have hd : ∀ l, (reconstructedDirectionalPass lc l).intensity = l.intensity := by
    intro l
    unfold reconstructedDirectionalPass
    split_ifs <;> rfl
  have hp : ∀ l, (reconstructedPointSpotPass lc l).intensity = l.intensity := by
    intro l
    unfold reconstructedPointSpotPass
    split_ifs <;> rfl
  have hvd : ∀ l, (volumetricDirectionalPass lc l).intensity = l.intensity := by
    intro l
    unfold volumetricDirectionalPass
    split_ifs <;> rfl
  have hvp : ∀ l, (volumetricPointSpotPass lc l).intensity = l.intensity := by
    intro l
    unfold volumetricPointSpotPass
    split_ifs <;> rfl
  constructor
  · unfold renderReconstructedSceneLights
    rw [List.map_map, List.map_map]
    apply List.map_congr_left
    intro a _
    show (reconstructedPointSpotPass lc (reconstructedDirectionalPass lc a)).intensity =
      a.intensity
    rw [hp, hd]
  · unfold renderVolumetricLightsLights
    rw [List.map_map, List.map_map]
    apply List.map_congr_left
    intro a _
    show (volumetricPointSpotPass lc (volumetricDirectionalPass lc a)).intensity =
      a.intensity
    rw [hvp, hvd]

/-! ## The forward render path and shadow-map creation
(renderer.cpp lines 198-219, 695-840, 842-883, 971-1015)

The functions are modelled as transformers of a small OpenGL state
record that also emit a trace of the observable GL commands (clears and
draws, each recording the color mask in force when issued, and shader
activations). -/

/-- `GTR::ePipelineMode` (renderer.h lines 40-44). -/
inductive ePipelineMode where
  | FORWARD
  | DEFERRED
  | NO_PIPELINE
deriving DecidableEq

/-- `GTR::eRenderMode` (renderer.h lines 20-33). -/
inductive eRenderMode where
  | SHOW_MULTIPASS
  | SHOW_TEXTURE
  | SHOW_NORMAL
  | SHOW_NORMALMAP
  | SHOW_UVS
  | SHOW_OCCLUSION
  | SHOW_METALLIC
  | SHOW_ROUGHNESS
  | SHOW_SINGLEPASS
  | SHOW_SHADOWMAP
  | SHOW_GBUFFERS
  | SHOW_NONE
deriving DecidableEq

/-- `GTR::eRendererCondition` (renderer.h lines 14-18). -/
inductive eRendererCondition where
  | REND_COND_NONE
  | REND_COND_ALPHA
  | REND_COND_NO_ALPHA
deriving DecidableEq

/-- The pieces of OpenGL state touched by the modelled functions: the
color write mask (`glColorMask`), blending (`GL_BLEND`), face culling
(`GL_CULL_FACE`), the depth function (`GL_LEQUAL` vs the `GL_LESS`
default), and the depth test (`GL_DEPTH_TEST`). -/
structure GLState where
  colorMask : Bool
  blend : Bool
  cullFace : Bool
  depthLequal : Bool
  depthTest : Bool
deriving DecidableEq

/-- Observable GL commands.  Clear and draw events record the color
mask in force when they were issued, which decides whether they can
write to a color attachment. -/
inductive GLEvent where
  | clearEv (colorBit depthBit maskOn : Bool)
  | drawEv (meshId : ℕ) (blendMat : Bool) (maskOn : Bool)
  | drawBoundingEv (meshId : ℕ) (maskOn : Bool)
  | drawSkyEv (maskOn : Bool)
  | shaderOn
  | shaderOff
deriving DecidableEq

/-- The `Renderer` members read by the modelled paths (renderer.h lines
155-187).  `shaderAvailable` stands for `Shader::Get`/`getShader`
returning a non-null program, `skybox` for
`scene->environment && apply_skybox`, and `numLights` for the number of
non-null entries of `lights`. -/
structure RendererFlags where
  pipeline_mode : ePipelineMode
  render_mode : eRenderMode
  renderer_cond : eRendererCondition
  rendering_shadowmap : Bool
  use_dithering : Bool
  isRenderingBoundingBox : Bool
  shaderAvailable : Bool
  skybox : Bool
  numLights : ℕ
deriving DecidableEq

/-- Whether the material uses blend transparency. -/
def matIsBlend (mat : Material) : Bool := decide (mat.alpha_mode = eAlphaMode.BLEND)

/-- `Renderer::renderMultiPass` (renderer.cpp lines 842-883): one draw
of the mesh per non-null light; every pass after the first enables
additive blending and the depth-equal test; `glDepthFunc(GL_LESS)` at
the end restores the depth function.  The color mask is never touched,
so all draws carry the incoming mask. -/
def renderMultiPass (r : RendererFlags) (m : Mesh) (mat : Material) (st : GLState) :
    GLState × List GLEvent :=
  let draws := List.replicate r.numLights
    (GLEvent.drawEv m.id (matIsBlend mat) st.colorMask)
  let st1 := if 2 ≤ r.numLights then { st with blend := true } else st
  ({ st1 with depthLequal := false }, draws)

/-- The draw performed by `Renderer::renderSinglePass` (renderer.cpp
lines 885-921) after gathering the per-light arrays. -/
def renderSinglePassDraw (m : Mesh) (mat : Material) (st : GLState) :
    GLState × List GLEvent :=
  (st, [GLEvent.drawEv m.id (matIsBlend mat) st.colorMask])

/-- The body of `Renderer::renderMeshWithMaterial` (renderer.cpp lines
702-840) past the early-out guard, for the call sites that pass
`sh = NULL` (all call sites modelled here do). -/
def renderMeshWithMaterialBody (r : RendererFlags) (m : Mesh) (mat : Material)
    (pipeline : ePipelineMode) (mode : eRenderMode) (st : GLState) :
    GLState × List GLEvent :=
  -- select the blending (lines 706-712)
  let st := { st with blend := matIsBlend mat }
  -- select if render both sides of the triangles (lines 715-718)
  let st := { st with cullFace := !mat.two_sided }
  -- resolve the defaulted pipeline and mode from the members (721-722)
  let pm := if pipeline = ePipelineMode.NO_PIPELINE then r.pipeline_mode else pipeline
  let rm := if mode = eRenderMode.SHOW_NONE then r.render_mode else mode
  -- no shader → nothing to render (lines 724-735)
  if r.shaderAvailable = false then (st, [])
  else if pm = ePipelineMode.DEFERRED ∧ matIsBlend mat = true ∧ r.use_dithering = false then
    -- deferred blend without dithering: disable and bail out (746-749)
    ({ st with blend := false }, [GLEvent.shaderOn, GLEvent.shaderOff])
  else
    -- uniform uploads have no modelled effect; dispatch (788-827)
    let result :=
      if pm = ePipelineMode.FORWARD then
        match rm with
        | eRenderMode.SHOW_MULTIPASS => renderMultiPass r m mat st
        | eRenderMode.SHOW_SINGLEPASS => renderSinglePassDraw m mat st
        | eRenderMode.SHOW_SHADOWMAP =>
          if r.rendering_shadowmap then
            -- do not care about objects with transparency in the shadowmap (803-807)
            if matIsBlend mat then (st, [])
            else (st, [GLEvent.drawEv m.id (matIsBlend mat) st.colorMask])
          else renderMultiPass r m mat st
        | _ => (st, [GLEvent.drawEv m.id (matIsBlend mat) st.colorMask])
      else
        (st, [GLEvent.drawEv m.id (matIsBlend mat) st.colorMask])
    -- shader->disable(); glDisable(GL_BLEND) (831-834); bounding box (837-839)
    let st2 := { result.1 with blend := false }
    let bevs := if r.isRenderingBoundingBox then
        [GLEvent.drawBoundingEv m.id st2.colorMask] else []
    (st2, GLEvent.shaderOn :: (result.2 ++ (GLEvent.shaderOff :: bevs)))

/-- `Renderer::renderMeshWithMaterial` (renderer.cpp lines 695-700):
`if (!mesh || !mesh->getNumVertices() || !material) return;` — the
guard fires before any state change or GL command. -/
def renderMeshWithMaterial (r : RendererFlags) (mesh : Option Mesh)
    (material : Option Material) (pipeline : ePipelineMode) (mode : eRenderMode)
    (st : GLState) : GLState × List GLEvent :=
  match mesh, material with
  | none, _ => (st, [])
  | some _, none => (st, [])
  | some m, some mat =>
    if m.numVertices = 0 then (st, [])
    else renderMeshWithMaterialBody r m mat pipeline mode st

/-- C7: a call with a null mesh, a null material, or a zero-vertex mesh
is a no-op — no draw, no shader activation, no state change. -/
theorem renderMeshWithMaterial_noop (r : RendererFlags) (mesh : Option Mesh)
    (material : Option Material) (pipeline : ePipelineMode) (mode : eRenderMode)
    (st : GLState)
    (h : mesh = none ∨ material = none ∨ ∃ m, mesh = some m ∧ m.numVertices = 0) :
    renderMeshWithMaterial r mesh material pipeline mode st = (st, []) := by
  rcases h with h | h | ⟨m, hm, hv⟩
  · subst h; rfl
  · subst h
    cases mesh with
    | none => rfl
    | some m => rfl
  · subst hm
    cases material with
    | none => rfl
    | some mat => simp [renderMeshWithMaterial, hv]

/-- An initial GL state: color writes on, blending off, culling on,
depth-less test on. -/
def glInit : GLState := ⟨true, false, true, false, true⟩

/-- Renderer flags as in the shadow-map configuration: forward
pipeline, shadow-map render mode. -/
def rFlagsShadow : RendererFlags :=
  ⟨ePipelineMode.FORWARD, eRenderMode.SHOW_SHADOWMAP,
   eRendererCondition.REND_COND_NONE, false, false, false, true, true, 2⟩

/-- Witness for C7 at a zero-vertex mesh. -/
theorem renderMeshWithMaterial_noop_witness :
    renderMeshWithMaterial rFlagsShadow (some ⟨5, 0⟩)
      (some ⟨eAlphaMode.NO_ALPHA, false⟩) ePipelineMode.NO_PIPELINE
      eRenderMode.SHOW_NONE glInit = (glInit, []) :=
  renderMeshWithMaterial_noop rFlagsShadow (some ⟨5, 0⟩)
    (some ⟨eAlphaMode.NO_ALPHA, false⟩) ePipelineMode.NO_PIPELINE
    eRenderMode.SHOW_NONE glInit (Or.inr (Or.inr ⟨⟨5, 0⟩, rfl, rfl⟩))

/-- One iteration of the per-call loop of `Renderer::renderForward`
(renderer.cpp lines 213-217): the render-condition filter around
`renderMeshWithMaterial`. -/
def renderForwardStep (r : RendererFlags) (pipeline : ePipelineMode)
    (mode : eRenderMode) (rc : renderCall) (st : GLState) : GLState × List GLEvent :=
  if (r.renderer_cond = eRendererCondition.REND_COND_NO_ALPHA ∧ rc.isAlpha = false) ∨
      r.renderer_cond = eRendererCondition.REND_COND_NONE then
    renderMeshWithMaterial r rc.mesh rc.material pipeline mode st
  else if r.renderer_cond = eRendererCondition.REND_COND_ALPHA ∧ rc.isAlpha = true then
    renderMeshWithMaterial r rc.mesh rc.material pipeline mode st
  else (st, [])

/-- The per-call loop of `Renderer::renderForward` (renderer.cpp lines
211-218). -/
def renderForwardCalls (r : RendererFlags) (pipeline : ePipelineMode)
    (mode : eRenderMode) : List renderCall → GLState → GLState × List GLEvent
  | [], st => (st, [])
  | rc :: rest, st =>
    ((renderForwardCalls r pipeline mode rest (renderForwardStep r pipeline mode rc st).1).1,
     (renderForwardStep r pipeline mode rc st).2 ++
       (renderForwardCalls r pipeline mode rest
         (renderForwardStep r pipeline mode rc st).1).2)

/-- `Renderer::renderSkybox` (renderer.cpp lines 1265-1288): disables
blending, culling and the depth test around a sphere draw, re-enabling
culling and the depth test afterwards. -/
def renderSkybox (st : GLState) : GLState × List GLEvent :=
  ({ st with blend := false, cullFace := true, depthTest := true },
   [GLEvent.shaderOn, GLEvent.drawSkyEv st.colorMask, GLEvent.shaderOff])

/-- `Renderer::renderForward` (renderer.cpp lines 198-219): clears the
color and depth buffers (subject to the color mask in force), optionally
draws the skybox, then renders every call through the filter. -/
def renderForward (r : RendererFlags) (pipeline : ePipelineMode) (mode : eRenderMode)
    (data : List renderCall) (st : GLState) : GLState × List GLEvent :=
  ((renderForwardCalls r pipeline mode data
      (if r.skybox then renderSkybox st else (st, [])).1).1,
   GLEvent.clearEv true true st.colorMask ::
     ((if r.skybox then renderSkybox st else (st, [])).2 ++
      (renderForwardCalls r pipeline mode data
        (if r.skybox then renderSkybox st else (st, [])).1).2))

/-- The light data read by `createShadowMaps`: the cast-shadow flag and
the (precomputed) result of `camera->testSphereInFrustum` on the
light's influence sphere (framework code outside src/). -/
structure ShadowLight where
  cast_shadow : Bool
  inside_frustum : Bool
deriving DecidableEq

/-- The loop of `Renderer::createShadowMaps` (renderer.cpp lines
973-1000).  Per eligible light: bind the light's shadow FBO, disable
color writes, clear only the depth buffer, render the scene with
`rendering_shadowmap = true`, unbind, re-enable color writes.  Both
call sites (renderToFBO lines 46-49 and createShadowMapsUsingForward
lines 1004-1015) guarantee `pipeline_mode = FORWARD` and
`render_mode = SHOW_SHADOWMAP`, so `renderScene` here is
`createRenderCalls` followed by `renderForward`; `data i` is the sorted
render-call list built for light `i`'s shadow camera. -/
def createShadowMapsLoop (r : RendererFlags) (data : ℕ → List renderCall) :
    List ShadowLight → ℕ → GLState → GLState × List GLEvent
  | [], _, st => (st, [])
  | l :: rest, i, st =>
    if l.cast_shadow = false ∨ l.inside_frustum = false then
      createShadowMapsLoop r data rest (i + 1) st
    else
      ((createShadowMapsLoop r data rest (i + 1)
          { (renderForward { r with rendering_shadowmap := true }
              ePipelineMode.NO_PIPELINE eRenderMode.SHOW_NONE (data i)
              { st with colorMask := false }).1 with colorMask := true }).1,
       -- the depth-only clear is issued right after glColorMask(false,...)
       (GLEvent.clearEv false true false ::
          (renderForward { r with rendering_shadowmap := true }
            ePipelineMode.NO_PIPELINE eRenderMode.SHOW_NONE (data i)
            { st with colorMask := false }).2) ++
         (createShadowMapsLoop r data rest (i + 1)
            { (renderForward { r with rendering_shadowmap := true }
                ePipelineMode.NO_PIPELINE eRenderMode.SHOW_NONE (data i)
                { st with colorMask := false }).1 with colorMask := true }).2)

/-- `Renderer::createShadowMaps` over all lights of the scene. -/
def createShadowMaps (r : RendererFlags) (lights : List ShadowLight)
    (data : ℕ → List renderCall) (st : GLState) : GLState × List GLEvent :=
  createShadowMapsLoop r data lights 0 st

/-- Whether an event writes to a color attachment: a clear with the
color bit while the mask is on, or any draw with the mask on. -/
def eventWritesColor : GLEvent → Bool
  | GLEvent.clearEv c _ m => c && m
  | GLEvent.drawEv _ _ m => m
  | GLEvent.drawBoundingEv _ m => m
  | GLEvent.drawSkyEv m => m
  | _ => false

/-- Whether a clear event effectively clears nothing but depth (it
clears the depth bit, and any color bit is nullified by the mask);
non-clear events pass trivially. -/
def eventClearsDepthOnly : GLEvent → Bool
  | GLEvent.clearEv c d m => d && !(c && m)
  | _ => true

/-- Whether an event draws the mesh of a blend-transparent material. -/
def eventIsBlendDraw : GLEvent → Bool
  | GLEvent.drawEv _ b _ => b
  | _ => false

/-- During shadow rendering (forward pipeline, shadow-map mode,
`rendering_shadowmap` on, color mask off) a single
`renderMeshWithMaterial` call preserves the disabled color mask, writes
no color, issues no clear, and never draws the mesh of a
blend-transparent material. -/
theorem renderMeshWithMaterial_shadow_safe (r : RendererFlags) (mesh : Option Mesh)
    (material : Option Material) (st : GLState)
    (hmask : st.colorMask = false)
    (hpm : r.pipeline_mode = ePipelineMode.FORWARD)
    (hrm : r.render_mode = eRenderMode.SHOW_SHADOWMAP)
    (hsm : r.rendering_shadowmap = true) :
    (renderMeshWithMaterial r mesh material ePipelineMode.NO_PIPELINE
      eRenderMode.SHOW_NONE st).1.colorMask = false ∧
    ∀ e ∈ (renderMeshWithMaterial r mesh material ePipelineMode.NO_PIPELINE
      eRenderMode.SHOW_NONE st).2,
      eventWritesColor e = false ∧ eventClearsDepthOnly e = true ∧
        eventIsBlendDraw e = false := by
  cases mesh with
  | none => exact ⟨hmask, by simp [renderMeshWithMaterial]⟩
  | some m =>
    cases material with
    | none => exact ⟨hmask, by simp [renderMeshWithMaterial]⟩
    | some mat =>
      by_cases hv : m.numVertices = 0
      · refine ⟨?_, ?_⟩ <;> simp [renderMeshWithMaterial, hv, hmask]
      · rw [renderMeshWithMaterial]
        rw [if_neg hv]
        unfold renderMeshWithMaterialBody
        simp only [hpm, hrm, hsm]
        by_cases hsh : r.shaderAvailable = false
        · simp [hsh, hmask]
        · cases hb : matIsBlend mat <;> by_cases hbb : r.isRenderingBoundingBox = true <;>
            simp [hsh, hb, hbb, hmask, eventWritesColor, eventClearsDepthOnly,
              eventIsBlendDraw]

/-- One filtered iteration under the shadow configuration. -/
theorem renderForwardStep_shadow_safe (r : RendererFlags) (rc : renderCall)
    (st : GLState)
    (hmask : st.colorMask = false)
    (hpm : r.pipeline_mode = ePipelineMode.FORWARD)
    (hrm : r.render_mode = eRenderMode.SHOW_SHADOWMAP)
    (hsm : r.rendering_shadowmap = true) :
    (renderForwardStep r ePipelineMode.NO_PIPELINE eRenderMode.SHOW_NONE rc st).1.colorMask
        = false ∧
    ∀ e ∈ (renderForwardStep r ePipelineMode.NO_PIPELINE eRenderMode.SHOW_NONE rc st).2,
      eventWritesColor e = false ∧ eventClearsDepthOnly e = true ∧
        eventIsBlendDraw e = false := by
  unfold renderForwardStep
  split_ifs with h1 h2
  · exact renderMeshWithMaterial_shadow_safe r rc.mesh rc.material st hmask hpm hrm hsm
  · exact renderMeshWithMaterial_shadow_safe r rc.mesh rc.material st hmask hpm hrm hsm
  · exact ⟨hmask, by simp⟩

/-- The forward per-call loop under the shadow configuration. -/
theorem renderForwardCalls_shadow_safe (r : RendererFlags)
    (hpm : r.pipeline_mode = ePipelineMode.FORWARD)
    (hrm : r.render_mode = eRenderMode.SHOW_SHADOWMAP)
    (hsm : r.rendering_shadowmap = true) :
    ∀ (data : List renderCall) (st : GLState), st.colorMask = false →
      (renderForwardCalls r ePipelineMode.NO_PIPELINE eRenderMode.SHOW_NONE
        data st).1.colorMask = false ∧
      ∀ e ∈ (renderForwardCalls r ePipelineMode.NO_PIPELINE eRenderMode.SHOW_NONE
        data st).2,
        eventWritesColor e = false ∧ eventClearsDepthOnly e = true ∧
          eventIsBlendDraw e = false := by
  intro data
  induction data with
  | nil => exact fun st hmask => ⟨hmask, by simp [renderForwardCalls]⟩
  | cons rc rest ih =>
    intro st hmask
    obtain ⟨h1, h2⟩ := renderForwardStep_shadow_safe r rc st hmask hpm hrm hsm
    obtain ⟨h3, h4⟩ :=
      ih (renderForwardStep r ePipelineMode.NO_PIPELINE eRenderMode.SHOW_NONE rc st).1 h1
    refine ⟨h3, ?_⟩
    intro e he
    rw [renderForwardCalls] at he
    rcases List.mem_append.mp he with h | h
    · exact h2 e h
    · exact h4 e h

/-- `renderForward` under the shadow configuration (color mask off). -/
theorem renderForward_shadow_safe (r : RendererFlags) (data : List renderCall)
    (st : GLState)
    (hmask : st.colorMask = false)
    (hpm : r.pipeline_mode = ePipelineMode.FORWARD)
    (hrm : r.render_mode = eRenderMode.SHOW_SHADOWMAP)
    (hsm : r.rendering_shadowmap = true) :
    (renderForward r ePipelineMode.NO_PIPELINE eRenderMode.SHOW_NONE
      data st).1.colorMask = false ∧
    ∀ e ∈ (renderForward r ePipelineMode.NO_PIPELINE eRenderMode.SHOW_NONE data st).2,
      eventWritesColor e = false ∧ eventClearsDepthOnly e = true ∧
        eventIsBlendDraw e = false := by
  have hsky : ((if r.skybox then renderSkybox st else (st, [])).1.colorMask = false) ∧
      ∀ e ∈ (if r.skybox then renderSkybox st else (st, [])).2,
        eventWritesColor e = false ∧ eventClearsDepthOnly e = true ∧
          eventIsBlendDraw e = false := by
    split
    · exact ⟨hmask, by simp [renderSkybox, hmask, eventWritesColor, eventClearsDepthOnly,
        eventIsBlendDraw]⟩
    · exact ⟨hmask, by simp⟩
  obtain ⟨hs1, hs2⟩ := hsky
  obtain ⟨h3, h4⟩ := renderForwardCalls_shadow_safe r hpm hrm hsm data
    (if r.skybox then renderSkybox st else (st, [])).1 hs1
  refine ⟨h3, ?_⟩
  intro e he
  rw [renderForward] at he
  rcases List.mem_cons.mp he with h | h
  · subst h
    simp [eventWritesColor, eventClearsDepthOnly, eventIsBlendDraw, hmask]
  rcases List.mem_append.mp h with h | h
  · exact hs2 e h
  · exact h4 e h

/-- The `createShadowMaps` loop: starting with color writes enabled, the
loop always re-enables them, and across the whole emitted trace no
command writes color, every clear is effectively depth-only, and no
draw targets a blend-transparent material's mesh. -/
theorem createShadowMapsLoop_spec (r : RendererFlags) (data : ℕ → List renderCall)
    (hpm : r.pipeline_mode = ePipelineMode.FORWARD)
    (hrm : r.render_mode = eRenderMode.SHOW_SHADOWMAP) :
    ∀ (lights : List ShadowLight) (i : ℕ) (st : GLState), st.colorMask = true →
      (createShadowMapsLoop r data lights i st).1.colorMask = true ∧
      ∀ e ∈ (createShadowMapsLoop r data lights i st).2,
        eventWritesColor e = false ∧ eventClearsDepthOnly e = true ∧
          eventIsBlendDraw e = false := by
  intro lights
  induction lights with
  | nil => exact fun i st hmask => ⟨hmask, by simp [createShadowMapsLoop]⟩
  | cons l rest ih =>
    intro i st hmask
    by_cases hskip : l.cast_shadow = false ∨ l.inside_frustum = false
    · rw [createShadowMapsLoop, if_pos hskip]
      exact ih (i + 1) st hmask
    · have hinner := renderForward_shadow_safe { r with rendering_shadowmap := true }
        (data i) { st with colorMask := false } rfl hpm hrm rfl
      obtain ⟨hi1, hi2⟩ := hinner
      obtain ⟨ht1, ht2⟩ := ih (i + 1)
        { (renderForward { r with rendering_shadowmap := true }
            ePipelineMode.NO_PIPELINE eRenderMode.SHOW_NONE (data i)
            { st with colorMask := false }).1 with colorMask := true } rfl
      rw [createShadowMapsLoop, if_neg hskip]
      refine ⟨ht1, ?_⟩
      intro e he
      rcases List.mem_append.mp he with h | h
      · rcases List.mem_cons.mp h with h | h
        · subst h
          exact ⟨rfl, rfl, rfl⟩
        · exact hi2 e h
      · exact ht2 e h

/-- C6: during shadow-map creation, for each shadow-casting light whose
influence sphere intersects the camera frustum, color writes are
disabled before rendering and restored afterwards (the final color mask
is back on and no emitted command can write color), only the depth
attachment is effectively cleared, and no render call with a
blend-transparent material ever has its mesh drawn into the shadow
map. -/
theorem createShadowMaps_shadow_spec (r : RendererFlags)
    (lights : List ShadowLight) (data : ℕ → List renderCall) (st : GLState)
    (hmask : st.colorMask = true)
    (hpm : r.pipeline_mode = ePipelineMode.FORWARD)
    (hrm : r.render_mode = eRenderMode.SHOW_SHADOWMAP) :
    (createShadowMaps r lights data st).1.colorMask = true ∧
    ∀ e ∈ (createShadowMaps r lights data st).2,
      eventWritesColor e = false ∧ eventClearsDepthOnly e = true ∧
        eventIsBlendDraw e = false :=
  createShadowMapsLoop_spec r data hpm hrm lights 0 st hmask

/-- A solid render call for the C6 witness. -/
def rcShadowSolid : renderCall :=
  ⟨some ⟨7, 3⟩, some ⟨eAlphaMode.NO_ALPHA, false⟩, 1, false⟩

/-- A blend-transparent render call for the C6 witness. -/
def rcShadowBlend : renderCall :=
  ⟨some ⟨8, 3⟩, some ⟨eAlphaMode.BLEND, false⟩, 2, true⟩

/-- A render-call list for every light of the C6 witness. -/
def shadowData : ℕ → List renderCall := fun _ => [rcShadowSolid, rcShadowBlend]

/-- Witness for C6: one shadow-casting light inside the frustum, a
solid and a blend call. -/
theorem createShadowMaps_shadow_spec_witness :
    (createShadowMaps rFlagsShadow [⟨true, true⟩] shadowData glInit).1.colorMask = true ∧
    ∀ e ∈ (createShadowMaps rFlagsShadow [⟨true, true⟩] shadowData glInit).2,
      eventWritesColor e = false ∧ eventClearsDepthOnly e = true ∧
        eventIsBlendDraw e = false :=
  createShadowMaps_shadow_spec rFlagsShadow [⟨true, true⟩] shadowData glInit
    rfl rfl rfl

end GTR
